import Mathlib

/-!
# Verification of the cpc-gpu plan/commands pipeline

A shallow embedding of the plan builder (`src/cpc-gpu/cpc-gpu.c`) and of the
OpenGL backend (`src/cpc-gpu/cpc-gpu-gl.c`), together with theorems settling
the specification claims about uniforms, the push/pop cursor discipline,
fake passes, append validation, uniform type checking, plan consumption,
buffer roles and the dispatch schedule.

Modelling conventions:
* machine integers are `Nat`/`Int`; the code performs no overflowing
  arithmetic in the fragments modelled here, only comparisons and bit tests;
* GLib `g_return_if_fail` guards are modelled as early returns leaving the
  state unchanged (the critical log is not part of the state unless a claim
  is about the message, in which case the function also returns a log);
* pointers to reference-counted objects are modelled by the object values
  themselves (textures and buffers by integer ids); float payloads are
  carried as opaque bit patterns and never interpreted;
* `GHashTable` with string keys is modelled as an association list with
  `replace` semantics (at most one binding per key);
* driver calls (`glGen*`) are modelled as drawing fresh positive names from
  a counter; the driver-failure paths (a generated name of 0) are not
  modelled, as the claims concern the caching/role discipline.
-/

namespace CpcGpu

/-! ## Closed enumerations (values as assigned in cpc-gpu.h) -/

/-- `CG_BLEND_0`, the "do not use" sentinel of the blend enum. -/
def CG_BLEND_0 : Int := 0

/-- `CG_BLEND_SRC_ALPHA` (7th proper member of the blend enum). -/
def CG_BLEND_SRC_ALPHA : Int := 7

/-- `CG_BLEND_ONE_MINUS_SRC_ALPHA`. -/
def CG_BLEND_ONE_MINUS_SRC_ALPHA : Int := 8

/-- `CG_N_BLENDS`: one past the last valid blend. -/
def CG_N_BLENDS : Int := 20

/-- `CG_WRITE_MASK_COLOR_RED = 1 << 0`. -/
def CG_WRITE_MASK_COLOR_RED : Nat := 1

/-- `CG_WRITE_MASK_COLOR_GREEN = 1 << 1`. -/
def CG_WRITE_MASK_COLOR_GREEN : Nat := 2

/-- `CG_WRITE_MASK_COLOR_BLUE = 1 << 2`. -/
def CG_WRITE_MASK_COLOR_BLUE : Nat := 4

/-- `CG_WRITE_MASK_COLOR_ALPHA = 1 << 3`. -/
def CG_WRITE_MASK_COLOR_ALPHA : Nat := 8

/-- `CG_WRITE_MASK_DEPTH = 1 << 4`. -/
def CG_WRITE_MASK_DEPTH : Nat := 16

/-- `CG_WRITE_MASK_ALL` = all five bits. -/
def CG_WRITE_MASK_ALL : Nat := 31

/-- `CG_WRITE_MASK_COLOR` = the four color bits. -/
def CG_WRITE_MASK_COLOR : Nat := 15

/-- `CG_TEST_FUNC_0`, the "do not use" sentinel of the depth-test enum. -/
def CG_TEST_FUNC_0 : Int := 0

/-- `CG_TEST_LEQUAL` (never=1, always=2, less=3, lequal=4, ...). -/
def CG_TEST_LEQUAL : Int := 4

/-- `CG_N_TEST_FUNCS`: one past the last valid test func. -/
def CG_N_TEST_FUNCS : Int := 9

/-! ## Shader reflection (backend state of a `CgShader`)

`CglShader` holds the reflection produced by `ensure_shader`: the
`uniform_assoc` hash maps a uniform name to `index + 1` into the `uniforms`
array of `ShaderLocation` records (0 meaning "absent").  We model the two
structures together as a list of `ShaderLocation`, looked up by name; GL
reflection reports each active uniform name once. -/

/-- The GL uniform types that `type_to_uniform_map` mentions; `glOther`
stands for any other GLenum reported by `glGetActiveUniform` (assumed
distinct from the named ones, as distinct GLenums are). `glGetActiveUniform`
never reports type 0, so the 0-padding of the C rows never matches. -/
inductive GlUniformType where
  | glBool
  | glInt
  | glUInt
  | glFloat
  | glFloatVec2
  | glFloatVec3
  | glFloatVec4
  | glFloatMat4
  | glSampler2D
  | glSamplerCube
  | glOther (code : Nat)
deriving DecidableEq, Repr

/-- One entry of a `CglShader`'s reflection array (`ShaderLocation` in
cpc-gpu-gl.c): name, flattened location, array count and GL type. -/
structure ShaderLocation where
  name : String
  location : Nat
  count : Nat
  type : GlUniformType
deriving DecidableEq, Repr

/-- Backend state of a shader: the reflection table populated at first
compile (program handle and attribute table omitted; the modelled claims
only read the uniform reflection). -/
structure CglShader where
  uniforms : List ShaderLocation
deriving DecidableEq, Repr

/-- `uniform_assoc` lookup followed by indexing `uniforms[index-1]`:
the record of the named uniform, or `none` when the stored index is 0. -/
def shaderUniformLookup (sh : CglShader) (name : String) : Option ShaderLocation :=
  sh.uniforms.find? (fun loc => loc.name = name)

/-! ## Values (`CgValue`) -/

/-- The tag of the `CgValue` tagged union (`CG_TYPE_*`). -/
inductive CgTypeTag where
  | shader
  | buffer
  | texture
  | bool
  | int
  | uint
  | float
  | pointer
  | vec2
  | vec3
  | vec4
  | mat4
  | rect
  | keyval
  | tuple2
  | tuple3
  | tuple4
deriving DecidableEq, Repr

/-- A `CgValue` in its initialized (ownership-transferred) form. Float
payloads are opaque bit patterns; buffers and textures are object ids. -/
inductive CgValue where
  | shader (s : CglShader)
  | buffer (id : Nat)
  | texture (id : Nat)
  | bool (b : Bool)
  | int (i : Int)
  | uint (u : Nat)
  | float (bits : Nat)
  | pointer (p : Nat)
  | vec2 (x y : Nat)
  | vec3 (x y z : Nat)
  | vec4 (x y z w : Nat)
  | mat4 (m : List Nat)
  | rect (x y w h : Int)
  | keyval (key : String) (v : CgValue)
  | tuple2 (a b : CgValue)
  | tuple3 (a b c : CgValue)
  | tuple4 (a b c d : CgValue)
deriving DecidableEq, Repr

/-- `value->type` of a `CgValue`. -/
def valueTypeTag : CgValue → CgTypeTag
  | .shader _ => .shader
  | .buffer _ => .buffer
  | .texture _ => .texture
  | .bool _ => .bool
  | .int _ => .int
  | .uint _ => .uint
  | .float _ => .float
  | .pointer _ => .pointer
  | .vec2 _ _ => .vec2
  | .vec3 _ _ _ => .vec3
  | .vec4 _ _ _ _ => .vec4
  | .mat4 _ => .mat4
  | .rect _ _ _ _ => .rect
  | .keyval _ _ => .keyval
  | .tuple2 _ _ => .tuple2
  | .tuple3 _ _ _ => .tuple3
  | .tuple4 _ _ _ _ => .tuple4

/-! ## The uniform type map (`type_to_uniform_map` in cpc-gpu-gl.c) -/

/-- Row of `type_to_uniform_map` for a value tag: the GL uniform types the
tag is accepted for.  Rows not listed in the C initializer are zero and thus
never match; the `tuple2..4` rows lie past the end of the C array (the
reverse-lookup loop in the source reads out of bounds there) and are modelled
as empty. -/
def type_to_uniform_map : CgTypeTag → List GlUniformType
  | .texture => [.glSampler2D, .glSamplerCube]
  | .bool => [.glBool]
  | .int => [.glInt]
  | .uint => [.glUInt]
  | .float => [.glFloat]
  | .vec2 => [.glFloatVec2]
  | .vec3 => [.glFloatVec3]
  | .vec4 => [.glFloatVec4]
  | .mat4 => [.glFloatMat4]
  | _ => []

/-- The enum order `CG_TYPE_0+1 .. ` in which the reverse lookup of
`test_uniform_validity` scans `type_to_uniform_map`. -/
def cgTypeEnumOrder : List CgTypeTag :=
  [.shader, .buffer, .texture, .bool, .int, .uint, .float, .pointer,
   .vec2, .vec3, .vec4, .mat4, .rect, .keyval]

/-- Reverse lookup: the first value tag whose map row contains the GL type
(`correct_type` computation in `test_uniform_validity`). -/
def reverseUniformLookup (u : GlUniformType) : Option CgTypeTag :=
  cgTypeEnumOrder.find? (fun t => (type_to_uniform_map t).contains u)

/-! ## Pass state (`CgPrivInstr` pass payload)

`CgPrivInstr` is declared in cpc-gpu-private.h (not shipped); its fields are
reconstructed from their uses in cpc-gpu.c.  The per-pass `attributes` hash
is created empty and never written by any modelled operation, so it is
omitted. -/

/-- A `(value, is_set)` override pair. -/
structure SetVal (α : Type) where
  val : α
  set : Bool
deriving DecidableEq, Repr

/-- One render target of a pass (`CgPrivTarget`): texture id plus blends. -/
structure CgPrivTarget where
  texture : Nat
  src_blend : Int
  dst_blend : Int
deriving DecidableEq, Repr

/-- The pass payload of an instruction node: render state, the uniform
store in its two views (hash by name and ordered name array), overrides,
tree depth and the fake flag. -/
structure CgPass where
  depth : Nat
  targets : List CgPrivTarget
  shader : Option CglShader
  uniformsHash : List (String × CgValue)
  uniformsOrder : List String
  dest : SetVal (Int × Int × Int × Int)
  write_mask : SetVal Nat
  depth_test_func : SetVal Int
  clockwise_faces : SetVal Bool
  backface_cull : SetVal Bool
  fake : Bool
deriving DecidableEq, Repr

/-- An instruction node with its children (the `GNode` tree and the
`CgPrivInstr` payloads merged): a pass, a vertices op or a blit op. -/
inductive CgPrivInstr where
  | pass (p : CgPass) (children : List CgPrivInstr)
  | vertices (buffers : List Nat) (instances : Nat)
  | blit (src : Nat)

/-! ## The plan builder state

The mutable `GNode` tree with its `cur_instr` cursor is modelled as a
zipper: `openPath` is the chain of passes from the cursor up to the root,
innermost first, each with the children committed below it so far.  An
empty `openPath` is `cur_instr == NULL`; `root` then holds the assembled
tree (`root_instr`) if one exists. -/

/-- The plan builder (`CgPlan`): the in-progress configuring pass, the
cursor zipper and the detached root. -/
structure CgPlan where
  configuring : Option CgPass
  openPath : List (CgPass × List CgPrivInstr)
  root : Option CgPrivInstr

/-- `cg_plan_new`: fresh plan, empty tree, no configuring node. -/
def cg_plan_new : CgPlan :=
  { configuring := none, openPath := [], root := none }

/-- The pass record `cg_plan_begin_config` allocates: the struct is
zero-initialized (`backface_cull.val` explicitly TRUE), all overrides
unset, the stores empty, at the given depth. -/
def beginConfigInstr (depth : Nat) : CgPass :=
  { depth := depth
    targets := []
    shader := none
    uniformsHash := []
    uniformsOrder := []
    dest := ⟨(0, 0, 0, 0), false⟩
    write_mask := ⟨0, false⟩
    depth_test_func := ⟨CG_TEST_FUNC_0, false⟩
    clockwise_faces := ⟨false, false⟩
    backface_cull := ⟨true, false⟩
    fake := false }

/-- `cg_plan_begin_config`: allocate the configuring pass.  Depth is
`cur->depth + 1` under a cursor and 0 at the root.  Fails (no-op) if a
configuring node already exists. -/
def cg_plan_begin_config (self : CgPlan) : CgPlan :=
  if self.configuring.isSome then self
  else
    { self with
      configuring := some
        (beginConfigInstr
          (match self.openPath with
           | [] => 0
           | (parent, _) :: _ => parent.depth + 1)) }

/-- `check_target_types`: each target argument is a plain `Texture` value or
a `Tuple3 (Texture, Int src_blend, Int dst_blend)` with both blends inside
the open range `(CG_BLEND_0, CG_N_BLENDS)`. -/
def check_target_types (targets : List CgValue) : Bool :=
  targets.all fun t =>
    match t with
    | .texture _ => true
    | .tuple3 a b c =>
      match a, b, c with
      | .texture _, .int s, .int d =>
        CG_BLEND_0 < s && s < CG_N_BLENDS && CG_BLEND_0 < d && d < CG_N_BLENDS
      | _, _, _ => false
    | _ => false

/-- The per-value switch of `config_targets`: a plain texture gets the
`SRC_ALPHA` / `ONE_MINUS_SRC_ALPHA` blends, a tuple carries its own.  The
default case is unreachable after `check_target_types`. -/
def targetOfValue : CgValue → CgPrivTarget
  | .texture t => ⟨t, CG_BLEND_SRC_ALPHA, CG_BLEND_ONE_MINUS_SRC_ALPHA⟩
  | .tuple3 (.texture t) (.int s) (.int d) => ⟨t, s, d⟩
  | _ => ⟨0, 0, 0⟩

/-- `cg_plan_config_targets`: appends the gathered targets to the
configuring node's target list after validating their types.  No-op when
there is no configuring node, no argument, or a type check fails. -/
def cg_plan_config_targets (self : CgPlan) (targets : List CgValue) : CgPlan :=
  match self.configuring with
  | none => self
  | some cfg =>
    if targets.isEmpty then self
    else if check_target_types targets then
      { self with
        configuring := some { cfg with targets := cfg.targets ++ targets.map targetOfValue } }
    else self

/-- `cg_plan_config_shader`: replaces the configuring node's shader. -/
def cg_plan_config_shader (self : CgPlan) (shader : CglShader) : CgPlan :=
  match self.configuring with
  | none => self
  | some cfg => { self with configuring := some { cfg with shader := some shader } }

/-- `g_hash_table_replace` on a string-keyed table: overwrite the binding
of the key when present, insert it otherwise. -/
def hashReplace (k : String) (v : CgValue) :
    List (String × CgValue) → List (String × CgValue)
  | [] => [(k, v)]
  | (k', v') :: rest =>
    if k' = k then (k, v) :: rest else (k', v') :: hashReplace k v rest

/-- `add_uniform`: `g_hash_table_replace` into the hash view, then
`g_ptr_array_add` of the key into the ordered view — unconditionally, also
when the key was already present. -/
def add_uniform (cfg : CgPass) (k : String) (v : CgValue) : CgPass :=
  { cfg with
    uniformsHash := hashReplace k v cfg.uniformsHash
    uniformsOrder := cfg.uniformsOrder ++ [k] }

/-- `cg_plan_config_uniforms`: adds each gathered keyval (the variadic
gather and the `CG_TYPE_KEYVAL` check are reflected by the typed argument
list).  No-op without a configuring node or without arguments. -/
def cg_plan_config_uniforms (self : CgPlan) (kvs : List (String × CgValue)) : CgPlan :=
  match self.configuring with
  | none => self
  | some cfg =>
    if kvs.isEmpty then self
    else
      { self with
        configuring := some (kvs.foldl (fun c kv => add_uniform c kv.1 kv.2) cfg) }

/-- `cg_plan_config_dest`: sets the dest rect; width and height must be
nonzero. -/
def cg_plan_config_dest (self : CgPlan) (x y width height : Int) : CgPlan :=
  match self.configuring with
  | none => self
  | some cfg =>
    if width = 0 then self
    else if height = 0 then self
    else { self with configuring := some { cfg with dest := ⟨(x, y, width, height), true⟩ } }

/-- `cg_plan_config_write_mask`: sets the write mask and marks it set. -/
def cg_plan_config_write_mask (self : CgPlan) (mask : Nat) : CgPlan :=
  match self.configuring with
  | none => self
  | some cfg => { self with configuring := some { cfg with write_mask := ⟨mask, true⟩ } }

/-- `cg_plan_config_depth_test_func`: sets the depth test func, which must
lie inside the open range `(CG_TEST_FUNC_0, CG_N_TEST_FUNCS)`. -/
def cg_plan_config_depth_test_func (self : CgPlan) (func : Int) : CgPlan :=
  match self.configuring with
  | none => self
  | some cfg =>
    if CG_TEST_FUNC_0 < func ∧ func < CG_N_TEST_FUNCS then
      { self with configuring := some { cfg with depth_test_func := ⟨func, true⟩ } }
    else self

/-- `cg_plan_config_clockwise_faces`. -/
def cg_plan_config_clockwise_faces (self : CgPlan) (clockwise : Bool) : CgPlan :=
  match self.configuring with
  | none => self
  | some cfg => { self with configuring := some { cfg with clockwise_faces := ⟨clockwise, true⟩ } }

/-- `cg_plan_config_backface_cull`. -/
def cg_plan_config_backface_cull (self : CgPlan) (cull : Bool) : CgPlan :=
  match self.configuring with
  | none => self
  | some cfg => { self with configuring := some { cfg with backface_cull := ⟨cull, true⟩ } }

/-- The pass committed by `cg_plan_push_group` under a parent: `fake` starts
TRUE and is cleared by newly specified targets or shader; empty targets and
a null shader are inherited from the parent; a fake node inherits the
parent's depth; unset overrides inherit the parent's value (the `set` flag
stays FALSE). -/
def commitUnderParent (cfg parent : CgPass) : CgPass :=
  let fakeAfterTargets := cfg.targets.length = 0
  let fake := fakeAfterTargets && cfg.shader.isNone
  { cfg with
    fake := fake
    targets := if cfg.targets.length = 0 then parent.targets else cfg.targets
    shader := if cfg.shader.isNone then parent.shader else cfg.shader
    depth := if fake then parent.depth else cfg.depth
    dest := if cfg.dest.set then cfg.dest else ⟨parent.dest.val, cfg.dest.set⟩
    write_mask :=
      if cfg.write_mask.set then cfg.write_mask else ⟨parent.write_mask.val, cfg.write_mask.set⟩
    depth_test_func :=
      if cfg.depth_test_func.set then cfg.depth_test_func
      else ⟨parent.depth_test_func.val, cfg.depth_test_func.set⟩
    clockwise_faces :=
      if cfg.clockwise_faces.set then cfg.clockwise_faces
      else ⟨parent.clockwise_faces.val, cfg.clockwise_faces.set⟩
    backface_cull :=
      if cfg.backface_cull.set then cfg.backface_cull
      else ⟨parent.backface_cull.val, cfg.backface_cull.set⟩ }

/-- The pass committed by `cg_plan_push_group` as the root: never fake;
unset write mask, depth func, face winding and culling get their defaults
with the `set` flag raised. -/
def commitAsRoot (cfg : CgPass) : CgPass :=
  { cfg with
    fake := false
    write_mask := if cfg.write_mask.set then cfg.write_mask else ⟨CG_WRITE_MASK_ALL, true⟩
    depth_test_func :=
      if cfg.depth_test_func.set then cfg.depth_test_func else ⟨CG_TEST_LEQUAL, true⟩
    clockwise_faces := if cfg.clockwise_faces.set then cfg.clockwise_faces else ⟨false, true⟩
    backface_cull := if cfg.backface_cull.set then cfg.backface_cull else ⟨true, true⟩ }

/-- `cg_plan_push_group`: commits the configuring node.  Under a cursor the
committed node is appended as the cursor's new last child and becomes the
cursor; with a NULL cursor it replaces the root (destroying any previous
tree) and becomes the cursor.  No-op without a configuring node. -/
def cg_plan_push_group (self : CgPlan) : CgPlan :=
  match self.configuring with
  | none => self
  | some cfg =>
    match self.openPath with
    | (parent, siblings) :: rest =>
      { configuring := none
        openPath := (commitUnderParent cfg parent, []) :: (parent, siblings) :: rest
        root := self.root }
    | [] =>
      { configuring := none
        openPath := [(commitAsRoot cfg, [])]
        root := none }

/-- One `cur_instr = cur_instr->parent` step of the pop loop: the open node
is assembled and appended after its committed siblings; popping the root
detaches the assembled tree and leaves a NULL cursor. -/
def popOne (self : CgPlan) : CgPlan :=
  match self.openPath with
  | [] => self
  | [(r, kids)] => { self with openPath := [], root := some (.pass r kids) }
  | (c, kids) :: (p, sibs) :: rest =>
    { self with openPath := (p, sibs ++ [.pass c kids]) :: rest }

/-- The loop body of `cg_plan_pop_n_groups`: pop up to `n` levels, stopping
(with a logged critical) when the cursor runs out. -/
def popLoop (self : CgPlan) : Nat → CgPlan
  | 0 => self
  | n + 1 =>
    if self.openPath.isEmpty then self else popLoop (popOne self) n

/-- `cg_plan_pop_n_groups`: moves the cursor up `n` levels.  No-op when a
configuring node exists or the cursor is already NULL. -/
def cg_plan_pop_n_groups (self : CgPlan) (n_groups : Nat) : CgPlan :=
  if self.configuring.isSome then self
  else if self.openPath.isEmpty then self
  else popLoop self n_groups

/-- The accumulator walk of `validate_append` over the cursor's
ancestor-or-self chain: `has_shader` is satisfied by any non-null shader; a
first-found set write mask whose DEPTH bit is clear satisfies both the mask
and the depth-func requirement at once (only when neither was satisfied
yet); otherwise the two flags are satisfied independently.  The walk stops
early once all three hold. -/
def validate_append_walk : List CgPass → Bool → Bool → Bool → Bool × Bool × Bool
  | [], hs, hw, hd => (hs, hw, hd)
  | instr :: rest, hs, hw, hd =>
    let hs := hs || instr.shader.isSome
    let hwhd :=
      if !hd && !hw && instr.write_mask.set
          && (instr.write_mask.val &&& CG_WRITE_MASK_DEPTH == 0) then
        (true, true)
      else
        (hw || instr.write_mask.set, hd || instr.depth_test_func.set)
    if hs && hwhd.1 && hwhd.2 then (hs, hwhd.1, hwhd.2)
    else validate_append_walk rest hs hwhd.1 hwhd.2

/-- `validate_append`: all three requirements hold along the chain from the
current node to the root. -/
def validate_append (self : CgPlan) : Bool :=
  let r := validate_append_walk (self.openPath.map Prod.fst) false false false
  r.1 && r.2.1 && r.2.2

/-- `cg_plan_append`: appends a vertices leaf under the current node after
the guards (`configuring == NULL`, non-NULL cursor, `instances > 0`, at
least one buffer) and `validate_append`; any failed guard leaves the plan
unchanged. -/
def cg_plan_append (self : CgPlan) (instances : Nat) (buffers : List Nat) : CgPlan :=
  if self.configuring.isSome then self
  else
    match self.openPath with
    | [] => self
    | (c, kids) :: rest =>
      if instances = 0 then self
      else if buffers.isEmpty then self
      else if validate_append self then
        { self with openPath := (c, kids ++ [.vertices buffers instances]) :: rest }
      else self

/-- `cg_plan_blit`: appends a blit leaf under the current node. -/
def cg_plan_blit (self : CgPlan) (src : Nat) : CgPlan :=
  if self.configuring.isSome then self
  else
    match self.openPath with
    | [] => self
    | (c, kids) :: rest =>
      { self with openPath := (c, kids ++ [.blit src]) :: rest }

/-! ## Operation languages used by the claims

A `push_group` call only has effect after a `begin_config`, and the config
setters only act between the two; the claims quantify over such call
sequences, which we represent by small operation types interpreted into the
functions above. -/

/-- The `config_*` setters that can run between `begin_config` and
`push_group`. -/
inductive ConfigOp where
  | targets (vals : List CgValue)
  | shader (s : CglShader)
  | uniforms (kvs : List (String × CgValue))
  | dest (x y w h : Int)
  | write_mask (m : Nat)
  | depth_test_func (f : Int)
  | clockwise_faces (b : Bool)
  | backface_cull (b : Bool)

/-- Interpretation of one config setter. -/
def applyConfig (self : CgPlan) : ConfigOp → CgPlan
  | .targets vals => cg_plan_config_targets self vals
  | .shader s => cg_plan_config_shader self s
  | .uniforms kvs => cg_plan_config_uniforms self kvs
  | .dest x y w h => cg_plan_config_dest self x y w h
  | .write_mask m => cg_plan_config_write_mask self m
  | .depth_test_func f => cg_plan_config_depth_test_func self f
  | .clockwise_faces b => cg_plan_config_clockwise_faces self b
  | .backface_cull b => cg_plan_config_backface_cull self b

/-- Interpretation of a sequence of config setters. -/
def applyConfigs (self : CgPlan) (ops : List ConfigOp) : CgPlan :=
  ops.foldl applyConfig self

/-- A push or a pop in the interleavings of the cursor claim: `push` is a
`begin_config` followed by `push_group` (a bare `push_group` is a no-op),
`pop` is `cg_plan_pop_n_groups (…, 1)` (the `cg_plan_pop` macro). -/
inductive PushPopOp where
  | push
  | pop
deriving DecidableEq, Repr

/-- Run a push/pop interleaving on a plan. -/
def runPushPop (self : CgPlan) : List PushPopOp → CgPlan
  | [] => self
  | .push :: rest => runPushPop (cg_plan_push_group (cg_plan_begin_config self)) rest
  | .pop :: rest => runPushPop (cg_plan_pop_n_groups self 1) rest

/-- Every pop of the interleaving runs while the cursor is strictly below
the root (depth at least one open group above the root). -/
def popsBelowRoot (self : CgPlan) : List PushPopOp → Bool
  | [] => true
  | .push :: rest => popsBelowRoot (cg_plan_push_group (cg_plan_begin_config self)) rest
  | .pop :: rest =>
    decide (2 ≤ self.openPath.length) && popsBelowRoot (cg_plan_pop_n_groups self 1) rest

/-- Every pop of the interleaving runs while the cursor is non-NULL (there
is a committed node to pop away from). -/
def popsAtNonNullCursor (self : CgPlan) : List PushPopOp → Bool
  | [] => true
  | .push :: rest => popsAtNonNullCursor (cg_plan_push_group (cg_plan_begin_config self)) rest
  | .pop :: rest =>
    !self.openPath.isEmpty && popsAtNonNullCursor (cg_plan_pop_n_groups self 1) rest

/-! ## OpenGL backend: uniform validation (`test_uniform_validity`) -/

/-- The recoverable error codes (`CgError`). -/
inductive CgErrorCode where
  | failedInit
  | failedShaderGen
  | failedShaderUniformSet
  | failedBufferGen
  | failedTextureGen
  | failedTargetCreation
deriving DecidableEq, Repr

/-- The errors `test_uniform_validity` can report for a uniform. -/
inductive UniformError where
  | doesNotExist (name : String)
  | typeMismatch (name : String) (expected : CgTypeTag) (got : CgTypeTag)
  | unsupported (name : String)
deriving DecidableEq, Repr

/-- The `CgError` code each `CGL_SET_ERROR` call in `test_uniform_validity`
passes: always `CG_ERROR_FAILED_SHADER_UNIFORM_SET`. -/
def UniformError.code : UniformError → CgErrorCode
  | .doesNotExist _ => .failedShaderUniformSet
  | .typeMismatch _ _ _ => .failedShaderUniformSet
  | .unsupported _ => .failedShaderUniformSet

/-- Outcome of validating one uniform. `assertUnreachable` is the
`g_assert_not_reached` hit when no ancestor carries a shader (the frontend
is supposed to have rejected such appends). -/
inductive UniformCheckResult where
  | ok
  | err (e : UniformError)
  | assertUnreachable
deriving DecidableEq, Repr

/-- `test_uniform_validity`: walk the chain from the pass being validated
through its ancestors to the first pass with a non-null shader; look the
name up in that shader's reflection; absent names fail; otherwise the
value's tag must map to the uniform's GL type, else the error reports the
expected tag obtained by reverse lookup (or "unsupported" when the GL type
appears in no row).  The `ensure_texture` / `ensure_buffer` side effects of
the success path (and their driver-failure exits) are not modelled. -/
def test_uniform_validity (name : String) (vtag : CgTypeTag) :
    List CgPass → UniformCheckResult
  | [] => .assertUnreachable
  | instr :: rest =>
    match instr.shader with
    | none => test_uniform_validity name vtag rest
    | some sh =>
      match shaderUniformLookup sh name with
      | none => .err (.doesNotExist name)
      | some loc =>
        if (type_to_uniform_map vtag).contains loc.type then .ok
        else
          match reverseUniformLookup loc.type with
          | none => .err (.unsupported name)
          | some correct => .err (.typeMismatch name correct vtag)

/-! ## OpenGL backend: plan consumption (`plan_unref_to_commands`) -/

/-- Uniform validation of one pass: `g_hash_table_find` of
`test_uniform_validity` over the pass's uniform hash, succeeding when no
entry reports an error (the chain starts at the pass itself). -/
def passUniformsOk (anc : List CgPass) (p : CgPass) : Bool :=
  p.uniformsHash.all fun kv =>
    test_uniform_validity kv.1 (valueTypeTag kv.2) (p :: anc) = .ok

/-- The modelled part of `ensure_instr_node` over the whole tree
(`g_node_traverse` of the compile step): every pass's uniforms are valid
against the nearest enclosing shader.  Shader compilation, texture and
buffer materialization and attribute validation are driver-side effects of
the same traversal that the claims here do not touch; they are modelled as
succeeding. -/
def ensureInstrTree (anc : List CgPass) : CgPrivInstr → Bool
  | .pass p cs => passUniformsOk anc p && cs.attach.all fun c => ensureInstrTree (p :: anc) c.1
  | .vertices _ _ => true
  | .blit _ => true
termination_by t => sizeOf t
decreasing_by
  have h := List.sizeOf_lt_of_mem c.property
  simp only [CgPrivInstr.pass.sizeOf_spec]
  omega

/-- Backend view of a plan at consumption time: its reference count and the
instruction tree (`root_instr`). -/
structure CglPlan where
  refcount : Nat
  root_instr : Option CgPrivInstr

/-- A compiled `CgCommands`: owns the instruction tree taken from the
plan. -/
structure CglCommands where
  instrs : Option CgPrivInstr

/-- `plan_unref_to_commands`: decrement the reference count; if other
references remain, log the user error and return nothing, leaving the tree
with the plan.  Otherwise take the tree, run the ensure traversal and
return the commands (the framebuffer-stack growth, a pure driver action, is
not modelled).  Result: the produced commands (if any), the surviving plan
(if any), and the logged criticals. -/
def plan_unref_to_commands (self : CglPlan) :
    Option CglCommands × Option CglPlan × List String :=
  if self.refcount ≤ 1 then
    let ok :=
      match self.root_instr with
      | some t => ensureInstrTree [] t
      | none => true
    (if ok then some ⟨self.root_instr⟩ else none, none, [])
  else
    (none, some { self with refcount := self.refcount - 1 },
     ["Plan object still has references elsewhere, so its resources cannot be compiled!"])

/-! ## OpenGL backend: buffer roles (`ensure_buffer` / `ensure_vertices`) -/

/-- One entry of a buffer's layout specification (`CgDataSegment`). -/
structure CgDataSegment where
  name : String
  type : CgTypeTag
  num : Nat
  instance_rate : Nat
deriving DecidableEq, Repr

/-- The driver name allocator: `glGen*` hands out fresh positive names. -/
structure GlCtx where
  next_name : Nat
deriving DecidableEq, Repr

/-- One successful `glGen*` call: a fresh positive name. -/
def glGenName (ctx : GlCtx) : Nat × GlCtx :=
  (ctx.next_name + 1, ⟨ctx.next_name + 1⟩)

/-- A buffer with its backend state (`CglBuffer`): the cached driver
handles of the two roles, the cached length/dynamic flags, plus the
frontend init descriptor fields the ensure functions read (`init.size`,
`spec`). -/
structure CglBuffer where
  vao_id : Nat
  vbo_id : Nat
  ubo_id : Nat
  length : Nat
  dynamic : Bool
  init_size : Nat
  spec : Option (List CgDataSegment)
deriving DecidableEq, Repr

/-- Result of an ensure call: success flag, updated buffer, updated driver
context and logged user-error criticals. -/
structure EnsureResult where
  success : Bool
  buffer : CglBuffer
  ctx : GlCtx
  log : List String
deriving DecidableEq, Repr

/-- `ensure_buffer` (the uniform-role ensure): a buffer holding a VAO is a
vertex buffer and fails; a buffer holding a VBO returns early (note: the
code tests `vbo_id`, not `ubo_id`); otherwise a UBO name is generated, the
data uploaded, and the backend state cached. -/
def ensure_buffer (self : CglBuffer) (ctx : GlCtx) : EnsureResult :=
  if self.vao_id > 0 then
    { success := false, buffer := self, ctx := ctx
      log := ["Buffer previously initialized as a vertex buffer erroneously being used as a uniform buffer"] }
  else if self.vbo_id > 0 then
    { success := true, buffer := self, ctx := ctx, log := [] }
  else
    let gen := glGenName ctx
    { success := true
      buffer := { self with vao_id := 0, vbo_id := 0, ubo_id := gen.1, length := 0, dynamic := true }
      ctx := gen.2
      log := [] }

/-- `ensure_vertices` (the vertex-role ensure): a buffer holding a UBO is a
uniform buffer and fails; a buffer holding both a VAO and a VBO returns
early; a missing layout fails; otherwise a VAO and a VBO are generated, the
data uploaded, and the backend state cached. -/
def ensure_vertices (self : CglBuffer) (ctx : GlCtx) : EnsureResult :=
  if self.ubo_id > 0 then
    { success := false, buffer := self, ctx := ctx
      log := ["Buffer previously initialized as a uniform buffer erroneously being used as a vertex buffer"] }
  else if self.vao_id > 0 && self.vbo_id > 0 then
    { success := true, buffer := self, ctx := ctx, log := [] }
  else if self.spec.isNone then
    { success := false, buffer := self, ctx := ctx
      log := ["Buffer needs a layout specification to be used as an attribute"] }
  else
    let genVao := glGenName ctx
    let genVbo := glGenName genVao.2
    { success := true
      buffer := { self with
        vao_id := genVao.1, vbo_id := genVbo.1, ubo_id := 0
        length := self.init_size, dynamic := true }
      ctx := genVbo.2
      log := [] }

/-! ## OpenGL backend: dispatch schedule (`process_instr_node`)

`commands_dispatch` pre-order-traverses the compiled tree with
`process_instr_node`.  Pass nodes return immediately; each leaf (vertices
or blit) node runs its parent pass's setup when it is the first child,
defensively rebinds the framebuffer and program when its previous sibling
is a pass, executes, and runs the parent's teardown when it is the last
child.  We record this schedule as a list of events tagged with node paths
(the path of a node is the list of child indices from the root); the GL
work inside setup/teardown is abstracted into the single event.  The
driver-failure exits (incomplete framebuffers) that abort the traversal
are not modelled. -/

/-- An event of the dispatch schedule; setup/rebind/teardown carry the path
of the pass they act for, draw/blit the path of the leaf. -/
inductive DispatchEv where
  | setup (passPath : List Nat)
  | rebind (passPath : List Nat)
  | draw (leafPath : List Nat)
  | blit (leafPath : List Nat)
  | teardown (passPath : List Nat)
deriving DecidableEq, Repr

/-- The path an event carries. -/
def DispatchEv.path : DispatchEv → List Nat
  | .setup p => p
  | .rebind p => p
  | .draw p => p
  | .blit p => p
  | .teardown p => p

/-- `node->prev != NULL && node->prev is a PASS` of the defensive rebind. -/
def prevIsPass : Option CgPrivInstr → Bool
  | some (.pass _ _) => true
  | _ => false

/-- True for the leaf constructors. -/
def isLeafInstr : CgPrivInstr → Bool
  | .pass _ _ => false
  | .vertices _ _ => true
  | .blit _ => true

mutual

/-- Traversal of a child list of the pass at `pp`: child `i` is processed
knowing its previous sibling and whether it is the last. -/
def processChildren (pp : List Nat) (i : Nat) (prev : Option CgPrivInstr) :
    List CgPrivInstr → List DispatchEv
  | [] => []
  | c :: rest =>
    processNode pp i prev rest.isEmpty c ++ processChildren pp (i + 1) (some c) rest
termination_by l => sizeOf l

/-- `process_instr_node` for the node at `pp ++ [i]`: a pass contributes
nothing itself and its children are traversed; a leaf runs the parent's
setup when first, the defensive rebind after a pass sibling, its own
operation, and the parent's teardown when last. -/
def processNode (pp : List Nat) (i : Nat) (prev : Option CgPrivInstr) (last : Bool) :
    CgPrivInstr → List DispatchEv
  | .pass _ cs => processChildren (pp ++ [i]) 0 none cs
  | .vertices _ _ =>
    (if prev.isNone then [.setup pp] else [])
      ++ (if prevIsPass prev then [.rebind pp] else [])
      ++ [.draw (pp ++ [i])]
      ++ (if last then [.teardown pp] else [])
  | .blit _ =>
    (if prev.isNone then [.setup pp] else [])
      ++ (if prevIsPass prev then [.rebind pp] else [])
      ++ [.blit (pp ++ [i])]
      ++ (if last then [.teardown pp] else [])
termination_by c => sizeOf c

end

/-- `commands_dispatch`: pre-order traversal from the root; the root pass
node itself contributes nothing (a leaf at the root would violate the
`node->parent != NULL` assertion and cannot be built by the plan API). -/
def commands_dispatch : CgPrivInstr → List DispatchEv
  | .pass _ cs => processChildren [] 0 none cs
  | .vertices _ _ => []
  | .blit _ => []

/-! ## Spec-side characterizations used to state the claims -/

/-- Some pass of the ancestor-or-self chain carries a non-null shader. -/
def chainHasShader (chain : List CgPass) : Bool :=
  chain.any fun q => q.shader.isSome

/-- Some pass of the chain has its write mask set. -/
def chainHasSetMask (chain : List CgPass) : Bool :=
  chain.any fun q => q.write_mask.set

/-- Some pass of the chain has its depth test func set. -/
def chainHasSetDepthFunc (chain : List CgPass) : Bool :=
  chain.any fun q => q.depth_test_func.set

/-- The nearest set write mask of the chain (the one the ancestor walk
finds, i.e. the mask in scope) has its DEPTH bit clear. -/
def nearestSetMaskDepthClear (chain : List CgPass) : Bool :=
  match chain.find? (fun q => q.write_mask.set) with
  | some m => m.write_mask.val &&& CG_WRITE_MASK_DEPTH == 0
  | none => false

/-! ## Concrete instances used by witnesses and counterexamples -/

/-- The pass record `cg_plan_begin_config` allocates at the root (depth 0,
everything empty/unset). -/
def freshConfigPass : CgPass :=
  beginConfigInstr 0

/-- A shader whose reflection declares `uniform float t` at location 0
(the shader of end-to-end scenario 4). -/
def shaderWithFloatT : CglShader :=
  ⟨[⟨"t", 0, 1, .glFloat⟩]⟩

/-- A pass whose shader is `shaderWithFloatT` and which sets `t = Int 3`. -/
def c5Pass : CgPass :=
  { freshConfigPass with
    shader := some shaderWithFloatT
    uniformsHash := [("t", .int 3)]
    uniformsOrder := ["t"] }

/-- A plan whose root pass has just been committed (cursor at the root). -/
def rootedPlan : CgPlan :=
  cg_plan_push_group (cg_plan_begin_config cg_plan_new)

/-- The root pass `rootedPlan` committed. -/
def rootPassDefault : CgPass :=
  commitAsRoot freshConfigPass

/-- The plan of the C1 evaluation: a configuring pass given
`config_uniforms("k", Int 1)` and then `config_uniforms("k", Int 2)`. -/
def c1Plan : CgPlan :=
  cg_plan_config_uniforms
    (cg_plan_config_uniforms (cg_plan_begin_config cg_plan_new) [("k", .int 1)])
    [("k", .int 2)]

/-- A plan whose root pass carries a shader (so that appends validate). -/
def c4Plan : CgPlan :=
  cg_plan_push_group (cg_plan_config_shader (cg_plan_begin_config cg_plan_new) shaderWithFloatT)

/-- The root pass of `c4Plan`. -/
def c4Root : CgPass :=
  commitAsRoot { freshConfigPass with shader := some shaderWithFloatT }

/-- A one-segment vertex layout. -/
def exampleSegment : CgDataSegment :=
  ⟨"vertexPosition", .float, 3, 0⟩

/-- A freshly created buffer with a layout, no driver state yet. -/
def bufFresh : CglBuffer :=
  { vao_id := 0, vbo_id := 0, ubo_id := 0, length := 0, dynamic := false
    init_size := 36, spec := some [exampleSegment] }

/-- A freshly created buffer without a layout. -/
def bufFreshNoSpec : CglBuffer :=
  { bufFresh with spec := none }

/-- The tree of the C9 counterexample: a root pass whose only child is a
sub-pass holding one vertices leaf. -/
def c9tree : CgPrivInstr :=
  .pass freshConfigPass [.pass freshConfigPass [.vertices [1] 1]]

/-! # Theorems -/

/-- C10: for every configuring pass, `config_targets` given a plain
`Texture` value appends a target whose source blend is `SRC_ALPHA` and
whose destination blend is `ONE_MINUS_SRC_ALPHA`. -/
theorem c10_plain_texture_default_blends (self : CgPlan) (cfg : CgPass) (t : Nat)
    (h : self.configuring = some cfg) :
    (cg_plan_config_targets self [.texture t]).configuring =
      some { cfg with
             targets := cfg.targets ++ [⟨t, CG_BLEND_SRC_ALPHA, CG_BLEND_ONE_MINUS_SRC_ALPHA⟩] } := by
  simp [cg_plan_config_targets, h, check_target_types, targetOfValue]

/-- Witness for C10 at a concrete input: a fresh configuring pass given
texture id 5 records it with the `SRC_ALPHA` / `ONE_MINUS_SRC_ALPHA`
blends. -/
theorem c10_plain_texture_default_blends_witness :
    (cg_plan_config_targets (cg_plan_begin_config cg_plan_new) [.texture 5]).configuring =
      some { freshConfigPass with
             targets := [⟨5, CG_BLEND_SRC_ALPHA, CG_BLEND_ONE_MINUS_SRC_ALPHA⟩] } :=
  c10_plain_texture_default_blends (cg_plan_begin_config cg_plan_new) freshConfigPass 5 rfl

/-- C1 (evaluation of the code at the failing input): after
`config_uniforms("k", Int 1)` followed by `config_uniforms("k", Int 2)`,
the hash view does yield `Int 2` for `k`, but the ordered name array holds
`k` twice (once per call), not exactly once at the first-insertion index as
the claim states: `add_uniform` appends the key to the order array
unconditionally also on replacement. -/
theorem c1_upsert_appends_duplicate_order_entry :
    c1Plan.configuring.map CgPass.uniformsOrder = some ["k", "k"]
    ∧ c1Plan.configuring.map (fun c => c.uniformsHash.lookup "k") = some (some (.int 2))
    ∧ c1Plan.configuring.map (fun c => c.uniformsOrder.count "k") ≠ some 1 := by
  decide

/-- C7: once a buffer is materialized in one role, an ensure in the
contradictory role fails with the user-error diagnostic, leaves the buffer
and the driver state untouched (no handles generated for the second role);
and a successful materialization does fix the role (a fresh buffer's
uniform-ensure leaves a UBO handle, its vertex-ensure a VAO handle). -/
theorem c7_buffer_role_exclusivity (b : CglBuffer) (ctx : GlCtx) :
    (b.ubo_id > 0 →
      ensure_vertices b ctx =
        ⟨false, b, ctx,
         ["Buffer previously initialized as a uniform buffer erroneously being used as a vertex buffer"]⟩)
    ∧ (b.vao_id > 0 →
      ensure_buffer b ctx =
        ⟨false, b, ctx,
         ["Buffer previously initialized as a vertex buffer erroneously being used as a uniform buffer"]⟩)
    ∧ (b.vao_id = 0 → b.vbo_id = 0 → (ensure_buffer b ctx).buffer.ubo_id > 0)
    ∧ (b.ubo_id = 0 → b.spec.isSome → (ensure_vertices b ctx).buffer.vao_id > 0) := by
  refine ⟨fun h => ?_, fun h => ?_, fun h1 h2 => ?_, fun h1 h2 => ?_⟩
  · simp [ensure_vertices, h]
  · simp [ensure_buffer, h]
  · simp [ensure_buffer, h1, h2, glGenName]
  · obtain ⟨v, hv2⟩ := Option.isSome_iff_exists.mp h2
    by_cases hvao : b.vao_id > 0 ∧ b.vbo_id > 0
    · simp [ensure_vertices, h1, hvao.1, hvao.2]
    · simp only [ensure_vertices, h1]
      rw [if_neg (by omega),
          if_neg (by simp only [Bool.and_eq_true, decide_eq_true_eq]; exact hvao),
          if_neg (by simp [hv2])]
      simp [glGenName]

/-- Witness for C7 at concrete inputs: a buffer holding UBO handle 1 fails
the vertex-ensure unchanged, and a buffer holding VAO 3 / VBO 4 fails the
uniform-ensure unchanged. -/
theorem c7_buffer_role_exclusivity_witness :
    ensure_vertices { bufFresh with ubo_id := 1 } ⟨1⟩ =
      ⟨false, { bufFresh with ubo_id := 1 }, ⟨1⟩,
       ["Buffer previously initialized as a uniform buffer erroneously being used as a vertex buffer"]⟩
    ∧ ensure_buffer { bufFresh with vao_id := 3, vbo_id := 4 } ⟨4⟩ =
      ⟨false, { bufFresh with vao_id := 3, vbo_id := 4 }, ⟨4⟩,
       ["Buffer previously initialized as a vertex buffer erroneously being used as a uniform buffer"]⟩ :=
  ⟨(c7_buffer_role_exclusivity { bufFresh with ubo_id := 1 } ⟨1⟩).1 (by decide),
   (c7_buffer_role_exclusivity { bufFresh with vao_id := 3, vbo_id := 4 } ⟨4⟩).2.1 (by decide)⟩

/-- C8 (evaluation of the code at the failing input): a fresh buffer's
first uniform-ensure caches UBO handle 1, but a second uniform-ensure of
the same buffer is not idempotent: because the early return tests `vbo_id`
(which the uniform path leaves 0) instead of `ubo_id`, the generation path
runs again, drawing a new driver handle and overwriting the cached one. -/
theorem c8_second_uniform_ensure_regenerates :
    (ensure_buffer bufFresh ⟨0⟩).success = true
    ∧ (ensure_buffer bufFresh ⟨0⟩).buffer.ubo_id = 1
    ∧ (ensure_buffer (ensure_buffer bufFresh ⟨0⟩).buffer (ensure_buffer bufFresh ⟨0⟩).ctx).success
        = true
    ∧ (ensure_buffer (ensure_buffer bufFresh ⟨0⟩).buffer (ensure_buffer bufFresh ⟨0⟩).ctx).buffer.ubo_id
        = 2
    ∧ (ensure_buffer (ensure_buffer bufFresh ⟨0⟩).buffer (ensure_buffer bufFresh ⟨0⟩).ctx).ctx
        ≠ (ensure_buffer bufFresh ⟨0⟩).ctx := by
  decide

/-- The uniform walk skips exactly the passes whose shader is null. -/
theorem test_uniform_validity_skip (name : String) (vtag : CgTypeTag)
    (pre rest : List CgPass) (h : ∀ q ∈ pre, q.shader = none) :
    test_uniform_validity name vtag (pre ++ rest) = test_uniform_validity name vtag rest := by
  induction pre with
  | nil => rfl
  | cons q pre ih =>
    have hq : q.shader = none := h q (List.mem_cons_self q pre)
    simp only [List.cons_append, test_uniform_validity, hq]
    exact ih fun r hr => h r (List.mem_cons_of_mem q hr)

/-- C5: a pass's uniform `(name, value)` is validated against the nearest
ancestor-or-self pass with a non-null shader; an absent name fails with the
`FAILED_SHADER_UNIFORM_SET` "does not exist" error; a present name whose GL
type is not in the value variant's row of `type_to_uniform_map` fails with
`FAILED_SHADER_UNIFORM_SET` carrying the expected variant obtained by
reverse lookup and the submitted variant; and the map is exactly
Bool→BOOL, Int→INT, UInt→UNSIGNED_INT, Float→FLOAT, Vec2/3/4→FLOAT_VEC2/3/4,
Mat4→FLOAT_MAT4, Texture→SAMPLER_2D or SAMPLER_CUBE. -/
theorem c5_uniform_validation (pre rest : List CgPass) (p : CgPass) (sh : CglShader)
    (name : String) (v : CgValue)
    (hpre : ∀ q ∈ pre, q.shader = none) (hp : p.shader = some sh) :
    (shaderUniformLookup sh name = none →
      test_uniform_validity name (valueTypeTag v) (pre ++ p :: rest)
        = .err (.doesNotExist name)
      ∧ (UniformError.doesNotExist name).code = .failedShaderUniformSet)
    ∧ (∀ loc expected,
      shaderUniformLookup sh name = some loc →
      (type_to_uniform_map (valueTypeTag v)).contains loc.type = false →
      reverseUniformLookup loc.type = some expected →
      test_uniform_validity name (valueTypeTag v) (pre ++ p :: rest)
        = .err (.typeMismatch name expected (valueTypeTag v))
      ∧ (UniformError.typeMismatch name expected (valueTypeTag v)).code
          = .failedShaderUniformSet)
    ∧ type_to_uniform_map .bool = [.glBool]
    ∧ type_to_uniform_map .int = [.glInt]
    ∧ type_to_uniform_map .uint = [.glUInt]
    ∧ type_to_uniform_map .float = [.glFloat]
    ∧ type_to_uniform_map .vec2 = [.glFloatVec2]
    ∧ type_to_uniform_map .vec3 = [.glFloatVec3]
    ∧ type_to_uniform_map .vec4 = [.glFloatVec4]
    ∧ type_to_uniform_map .mat4 = [.glFloatMat4]
    ∧ type_to_uniform_map .texture = [.glSampler2D, .glSamplerCube] := by
  rw [test_uniform_validity_skip name (valueTypeTag v) pre (p :: rest) hpre]
  refine ⟨fun habsent => ?_, fun loc expected hfound hmiss hrev => ?_,
          rfl, rfl, rfl, rfl, rfl, rfl, rfl, rfl, rfl⟩
  · simp [test_uniform_validity, hp, habsent, UniformError.code]
  · have hmiss' : loc.type ∉ type_to_uniform_map (valueTypeTag v) := by
      simpa using hmiss
    simp [test_uniform_validity, hp, hfound, hmiss', hrev, UniformError.code]

/-- Witness for C5 at end-to-end scenario 4: the shader declares
`uniform float t`, the plan submits `t = Int 3`; validation fails with the
mismatch error expecting `Float` and naming `Int`, and with the "does not
exist" error for an undeclared name `u`. -/
theorem c5_uniform_validation_witness :
    test_uniform_validity "t" (valueTypeTag (.int 3)) ([] ++ c5Pass :: [])
      = .err (.typeMismatch "t" .float .int)
    ∧ (UniformError.typeMismatch "t" .float .int).code = .failedShaderUniformSet
    ∧ test_uniform_validity "u" (valueTypeTag (.int 3)) ([] ++ c5Pass :: [])
      = .err (.doesNotExist "u")
    ∧ (UniformError.doesNotExist "u").code = .failedShaderUniformSet :=
  ⟨((c5_uniform_validation [] [] c5Pass shaderWithFloatT "t" (.int 3)
      (by intro q hq; cases hq) rfl).2.1
      ⟨"t", 0, 1, .glFloat⟩ .float (by decide) (by decide) (by decide)).1,
   ((c5_uniform_validation [] [] c5Pass shaderWithFloatT "t" (.int 3)
      (by intro q hq; cases hq) rfl).2.1
      ⟨"t", 0, 1, .glFloat⟩ .float (by decide) (by decide) (by decide)).2,
   ((c5_uniform_validation [] [] c5Pass shaderWithFloatT "u" (.int 3)
      (by intro q hq; cases hq) rfl).1 (by decide)).1,
   ((c5_uniform_validation [] [] c5Pass shaderWithFloatT "u" (.int 3)
      (by intro q hq; cases hq) rfl).1 (by decide)).2⟩

/-- C6: a plan whose reference count exceeds one at consumption time
produces no commands: `plan_unref_to_commands` logs the "still has
references" user error, returns nothing and leaves the tree with the plan;
commands are produced only when the caller held the sole reference. -/
theorem c6_consume_requires_sole_reference (p : CglPlan) (h1 : 1 ≤ p.refcount) :
    (1 < p.refcount →
      plan_unref_to_commands p =
        (none, some ⟨p.refcount - 1, p.root_instr⟩,
         ["Plan object still has references elsewhere, so its resources cannot be compiled!"]))
    ∧ ((plan_unref_to_commands p).1.isSome → p.refcount = 1) := by
  constructor
  · intro h2
    unfold plan_unref_to_commands
    rw [if_neg (by omega)]
  · intro hsome
    by_contra hne
    unfold plan_unref_to_commands at hsome
    rw [if_neg (by omega)] at hsome
    simp at hsome

/-- Witness for C6 at a concrete input: a plan holding two references and
one vertices leaf under its root is rejected with the user error and keeps
its tree. -/
theorem c6_consume_requires_sole_reference_witness :
    plan_unref_to_commands ⟨2, some (.pass freshConfigPass [.vertices [1] 1])⟩ =
      (none, some ⟨1, some (.pass freshConfigPass [.vertices [1] 1])⟩,
       ["Plan object still has references elsewhere, so its resources cannot be compiled!"]) :=
  (c6_consume_requires_sole_reference ⟨2, some (.pass freshConfigPass [.vertices [1] 1])⟩
    (by decide)).1 (by decide)

/-- Replacing the head of a list by a pair with the same first component
does not change the last element's first component. -/
theorem getLast?_map_fst_congr {α β : Type} (x y : α × β) (h : x.1 = y.1)
    (l : List (α × β)) :
    ((x :: l).getLast?).map Prod.fst = ((y :: l).getLast?).map Prod.fst := by
  cases l with
  | nil => simp [h]
  | cons z zs => simp [List.getLast?_cons_cons]

/-- The run invariant of push/pop interleavings whose pops all stay
strictly below the root: the configuring slot stays empty, the cursor
depth changes by pushes minus pops, stays at least 1, and the bottom
(root) pass of the open path survives. -/
theorem runPushPop_invariant (ops : List PushPopOp) :
    ∀ p : CgPlan,
      p.configuring = none → popsBelowRoot p ops = true → 1 ≤ p.openPath.length →
      (runPushPop p ops).configuring = none
      ∧ (runPushPop p ops).openPath.length + ops.count .pop
          = p.openPath.length + ops.count .push
      ∧ 1 ≤ (runPushPop p ops).openPath.length
      ∧ ((runPushPop p ops).openPath.getLast?).map Prod.fst
          = (p.openPath.getLast?).map Prod.fst := by
  induction ops with
  | nil => intro p h1 _ h3; exact ⟨h1, by simp [runPushPop], h3, rfl⟩
  | cons op rest ih =>
    intro p h1 h2 h3
    cases op with
    | push =>
      cases hop : p.openPath with
      | nil => rw [hop] at h3; simp at h3
      | cons head tl =>
        obtain ⟨parent, sibs⟩ := head
        have e_conf : (cg_plan_push_group (cg_plan_begin_config p)).configuring = none := by
          simp [cg_plan_begin_config, h1, cg_plan_push_group, hop]
        have e_open : (cg_plan_push_group (cg_plan_begin_config p)).openPath
            = (commitUnderParent (beginConfigInstr (parent.depth + 1)) parent, [])
                :: (parent, sibs) :: tl := by
          simp [cg_plan_begin_config, h1, cg_plan_push_group, hop]
        have h2' : popsBelowRoot (cg_plan_push_group (cg_plan_begin_config p)) rest = true := by
          simpa [popsBelowRoot] using h2
        have ihq := ih (cg_plan_push_group (cg_plan_begin_config p))
          e_conf h2' (by rw [e_open]; simp)
        rw [runPushPop]
        refine ⟨ihq.1, ?_, ihq.2.2.1, ?_⟩
        · have e1 : List.count PushPopOp.pop (PushPopOp.push :: rest)
              = List.count PushPopOp.pop rest := by simp
          have e2 : List.count PushPopOp.push (PushPopOp.push :: rest)
              = List.count PushPopOp.push rest + 1 := by simp
          have h5 := ihq.2.1
          rw [e_open] at h5
          rw [e1, e2]
          simp only [List.length_cons] at h5 ⊢
          omega
        · rw [ihq.2.2.2, e_open]
          simp [List.getLast?_cons_cons]
    | pop =>
      have h2a : (2 ≤ p.openPath.length) ∧
          popsBelowRoot (cg_plan_pop_n_groups p 1) rest = true := by
        have h4 := h2
        simp only [popsBelowRoot, Bool.and_eq_true, decide_eq_true_eq] at h4
        exact h4
      cases hop : p.openPath with
      | nil => rw [hop] at h2a; simp at h2a
      | cons a tl =>
        cases htl : tl with
        | nil =>
          rw [hop, htl] at h2a
          simp at h2a
        | cons b tl2 =>
          obtain ⟨ap, ak⟩ := a
          obtain ⟨bp, bk⟩ := b
          have e_conf : (cg_plan_pop_n_groups p 1).configuring = none := by
            simp [cg_plan_pop_n_groups, h1, hop, htl, popLoop, popOne]
          have e_open : (cg_plan_pop_n_groups p 1).openPath
              = (bp, bk ++ [CgPrivInstr.pass ap ak]) :: tl2 := by
            simp [cg_plan_pop_n_groups, h1, hop, htl, popLoop, popOne]
          have ihq := ih (cg_plan_pop_n_groups p 1)
            e_conf h2a.2 (by rw [e_open]; simp)
          rw [runPushPop]
          refine ⟨ihq.1, ?_, ihq.2.2.1, ?_⟩
          · have e1 : List.count PushPopOp.pop (PushPopOp.pop :: rest)
                = List.count PushPopOp.pop rest + 1 := by simp
            have e2 : List.count PushPopOp.push (PushPopOp.pop :: rest)
                = List.count PushPopOp.push rest := by simp
            have h5 := ihq.2.1
            rw [e_open] at h5
            rw [e1, e2]
            simp only [List.length_cons] at h5 ⊢
            omega
          · rw [ihq.2.2.2, e_open,
                getLast?_map_fst_congr (bp, bk ++ [CgPrivInstr.pass ap ak]) (bp, bk) rfl tl2]
            simp [List.getLast?_cons_cons]

/-- C2 (amended): for every plan whose root pass is committed and whose
cursor is at the root, after any interleaving of n `push_group` calls
(each preceded by its `begin_config`) and n single-group pops in which
every pop occurs strictly below the root (nonempty depth), the cursor
points at the root pass again.  As literally stated — counting the push
that creates the root among the n and reading "nonempty depth" as a
non-NULL cursor — the claim fails, see the counterexample. -/
theorem c2_push_pop_returns_to_root (p : CgPlan) (ops : List PushPopOp)
    (r : CgPass) (sibs : List CgPrivInstr)
    (h0 : p.configuring = none)
    (h1 : p.openPath = [(r, sibs)])
    (hbal : ops.count .push = ops.count .pop)
    (hvalid : popsBelowRoot p ops = true) :
    (runPushPop p ops).openPath.length = 1
    ∧ ((runPushPop p ops).openPath.head?).map Prod.fst = some r := by
  have inv := runPushPop_invariant ops p h0 hvalid (by rw [h1]; simp)
  have hlen : (runPushPop p ops).openPath.length = 1 := by
    have := inv.2.1
    rw [h1] at this
    simp only [List.length_cons, List.length_nil] at this
    omega
  refine ⟨hlen, ?_⟩
  have hlast := inv.2.2.2
  rw [h1] at hlast
  cases hfin : (runPushPop p ops).openPath with
  | nil => rw [hfin] at hlen; simp at hlen
  | cons x xs =>
    cases hxs : xs with
    | nil =>
      rw [hfin, hxs] at hlast
      simpa using hlast
    | cons y ys =>
      rw [hfin, hxs] at hlen
      simp at hlen

/-- C2 counterexample: one `push_group` and one pop, the pop performed
while the cursor is non-NULL (the tree is nonempty), yet afterwards the
cursor is NULL — above the root — and not at the root pass, which still
exists as the detached tree. -/
theorem c2_counterexample_null_cursor :
    ([PushPopOp.push, PushPopOp.pop].count PushPopOp.push = 1
      ∧ [PushPopOp.push, PushPopOp.pop].count PushPopOp.pop = 1)
    ∧ popsAtNonNullCursor cg_plan_new [PushPopOp.push, PushPopOp.pop] = true
    ∧ (runPushPop cg_plan_new [PushPopOp.push, PushPopOp.pop]).openPath.isEmpty = true
    ∧ (runPushPop cg_plan_new [PushPopOp.push, PushPopOp.pop]).root.isSome = true := by
  decide

/-- Witness for C2 at a concrete input: from a plan with the root pass
committed, push then pop (the pop at depth 1, strictly below the root)
returns the cursor to the root pass. -/
theorem c2_push_pop_returns_to_root_witness :
    (runPushPop rootedPlan [PushPopOp.push, PushPopOp.pop]).openPath.length = 1
    ∧ ((runPushPop rootedPlan [PushPopOp.push, PushPopOp.pop]).openPath.head?).map Prod.fst
        = some rootPassDefault :=
  c2_push_pop_returns_to_root rootedPlan [PushPopOp.push, PushPopOp.pop]
    rootPassDefault [] rfl rfl (by decide) (by decide)

/-- Config setters never move the cursor. -/
theorem applyConfig_openPath (p : CgPlan) (op : ConfigOp) :
    (applyConfig p op).openPath = p.openPath := by
  cases op <;>
    simp only [applyConfig, cg_plan_config_targets, cg_plan_config_shader,
      cg_plan_config_uniforms, cg_plan_config_dest, cg_plan_config_write_mask,
      cg_plan_config_depth_test_func, cg_plan_config_clockwise_faces,
      cg_plan_config_backface_cull] <;>
    rcases p.configuring with _ | cfg <;>
    (try rfl) <;> (repeat' split) <;> rfl

/-- `add_uniform` folds never change the pass depth. -/
theorem foldl_add_uniform_depth (kvs : List (String × CgValue)) :
    ∀ c : CgPass, (kvs.foldl (fun c kv => add_uniform c kv.1 kv.2) c).depth = c.depth := by
  induction kvs with
  | nil => intro c; rfl
  | cons kv rest ih => intro c; rw [List.foldl_cons, ih]; rfl

/-- Config setters keep a configuring node configuring and never change its
depth. -/
theorem applyConfig_depth (p : CgPlan) (op : ConfigOp) (cfg : CgPass)
    (h : p.configuring = some cfg) :
    ∃ cfg', (applyConfig p op).configuring = some cfg' ∧ cfg'.depth = cfg.depth := by
  cases op <;>
    simp only [applyConfig, cg_plan_config_targets, cg_plan_config_shader,
      cg_plan_config_uniforms, cg_plan_config_dest, cg_plan_config_write_mask,
      cg_plan_config_depth_test_func, cg_plan_config_clockwise_faces,
      cg_plan_config_backface_cull, h] <;>
    (repeat' split) <;>
    first
      | exact ⟨_, rfl, foldl_add_uniform_depth _ cfg⟩
      | exact ⟨_, rfl, rfl⟩
      | exact ⟨cfg, h, rfl⟩

/-- `applyConfigs` never moves the cursor. -/
theorem applyConfigs_openPath (ops : List ConfigOp) :
    ∀ p : CgPlan, (applyConfigs p ops).openPath = p.openPath := by
  induction ops with
  | nil => intro p; rfl
  | cons op rest ih =>
    intro p
    have h1 : applyConfigs p (op :: rest) = applyConfigs (applyConfig p op) rest := rfl
    rw [h1, ih, applyConfig_openPath]

/-- `applyConfigs` keeps a configuring node configuring at its depth. -/
theorem applyConfigs_depth (ops : List ConfigOp) :
    ∀ (p : CgPlan) (cfg : CgPass), p.configuring = some cfg →
      ∃ cfg', (applyConfigs p ops).configuring = some cfg' ∧ cfg'.depth = cfg.depth := by
  induction ops with
  | nil => intro p cfg h; exact ⟨cfg, h, rfl⟩
  | cons op rest ih =>
    intro p cfg h
    obtain ⟨cfg1, h1, hd1⟩ := applyConfig_depth p op cfg h
    obtain ⟨cfg2, h2, hd2⟩ := ih (applyConfig p op) cfg1 h1
    exact ⟨cfg2, h2, hd2.trans hd1⟩

/-- C3: every pass committed by `push_group` under a parent is fake exactly
when its configuration specified neither targets nor a shader, and its
recorded depth is the parent's depth when fake and the parent's depth plus
one otherwise (the committed node becomes the cursor as the parent's new
child). -/
theorem c3_fake_iff_no_targets_no_shader (p : CgPlan) (parent : CgPass)
    (sibs : List CgPrivInstr) (rest : List (CgPass × List CgPrivInstr))
    (ops : List ConfigOp)
    (h0 : p.configuring = none) (h1 : p.openPath = (parent, sibs) :: rest) :
    ∃ cfg, (applyConfigs (cg_plan_begin_config p) ops).configuring = some cfg
      ∧ cfg.depth = parent.depth + 1
      ∧ (cg_plan_push_group (applyConfigs (cg_plan_begin_config p) ops)).openPath
          = (commitUnderParent cfg parent, []) :: (parent, sibs) :: rest
      ∧ (commitUnderParent cfg parent).fake
          = (cfg.targets.isEmpty && cfg.shader.isNone)
      ∧ (commitUnderParent cfg parent).depth
          = (if (commitUnderParent cfg parent).fake then parent.depth
             else parent.depth + 1) := by
  have e_begin : (cg_plan_begin_config p).configuring
      = some (beginConfigInstr (parent.depth + 1)) := by
    simp [cg_plan_begin_config, h0, h1]
  obtain ⟨cfg, hc, hd⟩ := applyConfigs_depth ops (cg_plan_begin_config p)
    (beginConfigInstr (parent.depth + 1)) e_begin
  have hd' : cfg.depth = parent.depth + 1 := hd
  have e_open : (applyConfigs (cg_plan_begin_config p) ops).openPath
      = (parent, sibs) :: rest := by
    rw [applyConfigs_openPath]
    simp [cg_plan_begin_config, h0, h1]
  refine ⟨cfg, hc, hd', ?_, ?_, ?_⟩
  · simp [cg_plan_push_group, hc, e_open]
  · cases ht : cfg.targets <;> simp [commitUnderParent, ht]
  · by_cases hts : cfg.targets = [] ∧ cfg.shader = none
    · simp [commitUnderParent, hts]
    · simp [commitUnderParent, hts, hd']

/-- Witness for C3 at a concrete input: committing an unconfigured child
(push with no config calls) under the default root yields a fake pass at
the root's depth, placed as the root's child and the new cursor. -/
theorem c3_fake_iff_no_targets_no_shader_witness :
    (commitUnderParent (beginConfigInstr (rootPassDefault.depth + 1)) rootPassDefault).fake
      = ((beginConfigInstr (rootPassDefault.depth + 1)).targets.isEmpty
          && (beginConfigInstr (rootPassDefault.depth + 1)).shader.isNone)
    ∧ (commitUnderParent (beginConfigInstr (rootPassDefault.depth + 1)) rootPassDefault).depth
        = (if (commitUnderParent (beginConfigInstr (rootPassDefault.depth + 1))
                 rootPassDefault).fake
           then rootPassDefault.depth else rootPassDefault.depth + 1)
    ∧ (cg_plan_push_group (applyConfigs (cg_plan_begin_config rootedPlan) [])).openPath
        = (commitUnderParent (beginConfigInstr (rootPassDefault.depth + 1)) rootPassDefault, [])
            :: (rootPassDefault, []) :: [] := by
  obtain ⟨cfg, hc, hd, hopen, hfake, hdepth⟩ :=
    c3_fake_iff_no_targets_no_shader rootedPlan rootPassDefault [] [] [] rfl rfl
  have h2 : some cfg = some (beginConfigInstr (rootPassDefault.depth + 1)) := hc.symm.trans rfl
  injection h2 with h3
  subst h3
  exact ⟨hfake, hdepth, hopen⟩

/-- Closed form of the `validate_append` walk: the shader flag absorbs any
shader of the chain; the mask flag any set write mask; the depth flag any
set depth func, or — when neither mask nor depth flag was satisfied on
entry — a DEPTH-clear nearest set write mask. -/
theorem validate_append_walk_eq (chain : List CgPass) :
    ∀ hs hw hd : Bool,
      validate_append_walk chain hs hw hd =
        (hs || chainHasShader chain,
         hw || chainHasSetMask chain,
         hd || chainHasSetDepthFunc chain
           || (!hw && !hd && nearestSetMaskDepthClear chain)) := by
  induction chain with
  | nil =>
    intro hs hw hd
    simp [validate_append_walk, chainHasShader, chainHasSetMask,
      chainHasSetDepthFunc, nearestSetMaskDepthClear]
  | cons i rest ih =>
    intro hs hw hd
    cases hA : i.shader.isSome <;>
      cases hW : i.write_mask.set <;>
      cases hC : (i.write_mask.val &&& CG_WRITE_MASK_DEPTH == 0) <;>
      cases hD : i.depth_test_func.set <;>
      cases hs <;> cases hw <;> cases hd <;>
      simp [validate_append_walk, hA, hW, hC, hD, ih, chainHasShader,
        chainHasSetMask, chainHasSetDepthFunc, nearestSetMaskDepthClear,
        List.any_cons, List.find?_cons]

/-- `validate_append` in terms of the chain: a shader in scope, a set write
mask in scope, and either a set depth func in scope or a DEPTH-clear
nearest set write mask. -/
theorem validate_append_spec (p : CgPlan) :
    validate_append p =
      (chainHasShader (p.openPath.map Prod.fst)
       && chainHasSetMask (p.openPath.map Prod.fst)
       && (chainHasSetDepthFunc (p.openPath.map Prod.fst)
           || nearestSetMaskDepthClear (p.openPath.map Prod.fst))) := by
  unfold validate_append
  rw [validate_append_walk_eq]
  simp

/-- C4: with a committed current node and `instances ≥ 1`,
`cg_plan_append` adds a vertices leaf under the current node exactly when
`validate_append` holds, and otherwise leaves the plan (and its
instruction tree) unchanged; and `validate_append` holds iff, walking the
current node's ancestor-or-self chain, a non-null shader is found, a set
write mask is in scope, and either a set depth func is in scope or the
write mask in scope (the nearest set one) has its DEPTH bit clear. -/
theorem c4_append_validation (p : CgPlan) (c : CgPass) (kids : List CgPrivInstr)
    (rest : List (CgPass × List CgPrivInstr)) (instances : Nat) (buffers : List Nat)
    (h0 : p.configuring = none) (h1 : p.openPath = (c, kids) :: rest)
    (h2 : 1 ≤ instances) (h3 : buffers ≠ []) :
    (validate_append p = true →
      (cg_plan_append p instances buffers).openPath
        = (c, kids ++ [.vertices buffers instances]) :: rest)
    ∧ (validate_append p = false → cg_plan_append p instances buffers = p)
    ∧ validate_append p
        = (chainHasShader (p.openPath.map Prod.fst)
           && chainHasSetMask (p.openPath.map Prod.fst)
           && (chainHasSetDepthFunc (p.openPath.map Prod.fst)
               || nearestSetMaskDepthClear (p.openPath.map Prod.fst))) := by
  refine ⟨fun hv => ?_, fun hv => ?_, validate_append_spec p⟩
  · simp [cg_plan_append, h0, h1, hv, show instances ≠ 0 by omega,
      show ¬buffers.isEmpty = true by simpa using h3]
  · have he : cg_plan_append p instances buffers = p := by
      simp [cg_plan_append, h0, h1, hv, show instances ≠ 0 by omega,
        show ¬buffers.isEmpty = true by simpa using h3]
    exact he

/-- Witness for C4 at a concrete input: under a root pass with a shader
(write mask and depth func defaulted and set), appending one instance of
buffer 7 adds the vertices leaf under the root. -/
theorem c4_append_validation_witness :
    (cg_plan_append c4Plan 1 [7]).openPath
      = [(c4Root, [CgPrivInstr.vertices [7] 1])] :=
  (c4_append_validation c4Plan c4Root [] [] 1 [7] rfl rfl (by decide)
    (by decide)).1 (by decide)

/-- Every event emitted while traversing below a pass carries a path at
least as long as the pass's path (strictly longer for nested sub-passes),
proven by strong induction on the tree size. -/
theorem dispatch_path_len (n : Nat) :
    (∀ (l : List CgPrivInstr) (pp : List Nat) (i : Nat) (prev : Option CgPrivInstr),
      sizeOf l ≤ n →
      ∀ ev ∈ processChildren pp i prev l, pp.length ≤ (DispatchEv.path ev).length)
    ∧ (∀ (c : CgPrivInstr) (pp : List Nat) (i : Nat) (prev : Option CgPrivInstr)
        (last : Bool),
      sizeOf c ≤ n →
      ∀ ev ∈ processNode pp i prev last c, pp.length ≤ (DispatchEv.path ev).length) := by
  induction n using Nat.strong_induction_on with
  | _ n ih =>
    constructor
    · intro l pp i prev hn ev hev
      cases l with
      | nil => simp [processChildren] at hev
      | cons c rest =>
        have hsz : sizeOf (c :: rest) = 1 + sizeOf c + sizeOf rest := rfl
        simp only [processChildren, List.mem_append] at hev
        rcases hev with h | h
        · exact (ih (sizeOf c) (by omega)).2 c pp i prev rest.isEmpty (le_refl _) ev h
        · exact (ih (sizeOf rest) (by omega)).1 rest pp (i + 1) (some c) (le_refl _) ev h
    · intro c pp i prev last hn ev hev
      cases c with
      | pass p cs =>
        have hsz := CgPrivInstr.pass.sizeOf_spec p cs
        simp only [processNode] at hev
        have h5 := (ih (sizeOf cs) (by omega)).1 cs (pp ++ [i]) 0 none (le_refl _) ev hev
        rw [List.length_append] at h5
        omega
      | vertices bufs inst =>
        simp only [processNode, List.mem_append] at hev
        by_cases hp : prev.isNone = true <;> by_cases hq : prevIsPass prev = true <;>
          by_cases hl : last = true <;>
          simp [hp, hq, hl] at hev <;>
          (try casesm* _ ∨ _) <;> subst_vars <;>
          simp [DispatchEv.path, List.length_append]
      | blit src =>
        simp only [processNode, List.mem_append] at hev
        by_cases hp : prev.isNone = true <;> by_cases hq : prevIsPass prev = true <;>
          by_cases hl : last = true <;>
          simp [hp, hq, hl] at hev <;>
          (try casesm* _ ∨ _) <;> subst_vars <;>
          simp [DispatchEv.path, List.length_append]

/-- No event whose path equals the parent's path can come from a nested
sub-pass traversal. -/
theorem short_path_not_in_sub (pp : List Nat) (i : Nat) (cs : List CgPrivInstr)
    (ev : DispatchEv) (h : DispatchEv.path ev = pp) :
    ev ∉ processChildren (pp ++ [i]) 0 none cs := by
  intro hmem
  have h5 := (dispatch_path_len (sizeOf cs)).1 cs (pp ++ [i]) 0 none (le_refl _) ev hmem
  rw [h, List.length_append] at h5
  simp at h5

/-- A pass's setup event is emitted by a child-list traversal exactly when
the traversal starts with no previous sibling (i.e. at the first child)
and the first child is a leaf op. -/
theorem setup_mem_processChildren (l : List CgPrivInstr) :
    ∀ (pp : List Nat) (i : Nat) (prev : Option CgPrivInstr),
      (DispatchEv.setup pp ∈ processChildren pp i prev l) ↔
        (prev.isNone = true ∧ ∃ c, l.head? = some c ∧ isLeafInstr c = true) := by
  induction l with
  | nil => intro pp i prev; simp [processChildren]
  | cons c rest ih =>
    intro pp i prev
    simp only [processChildren, List.mem_append]
    constructor
    · rintro (h | h)
      · cases c with
        | pass p cs =>
          exact absurd h (by
            simp only [processNode]
            exact short_path_not_in_sub pp i cs _ rfl)
        | vertices bufs inst =>
          by_cases hp : prev.isNone = true <;> by_cases hq : prevIsPass prev = true <;>
            by_cases hl : rest.isEmpty = true <;>
            simp [processNode, hp, hq, hl] at h <;>
            exact ⟨hp, _, rfl, rfl⟩
        | blit src =>
          by_cases hp : prev.isNone = true <;> by_cases hq : prevIsPass prev = true <;>
            by_cases hl : rest.isEmpty = true <;>
            simp [processNode, hp, hq, hl] at h <;>
            exact ⟨hp, _, rfl, rfl⟩
      · have h5 := (ih pp (i + 1) (some c)).mp h
        simp at h5
    · rintro ⟨hp, c', hc', hleaf⟩
      rw [List.head?_cons] at hc'
      injection hc' with h4
      subst h4
      left
      cases c with
      | pass p cs => simp [isLeafInstr] at hleaf
      | vertices bufs inst => simp [processNode, hp]
      | blit src => simp [processNode, hp]

/-- A pass's teardown event is emitted by a child-list traversal exactly
when the last child is a leaf op. -/
theorem teardown_mem_processChildren (l : List CgPrivInstr) :
    ∀ (pp : List Nat) (i : Nat) (prev : Option CgPrivInstr),
      (DispatchEv.teardown pp ∈ processChildren pp i prev l) ↔
        (∃ c, l.getLast? = some c ∧ isLeafInstr c = true) := by
  induction l with
  | nil => intro pp i prev; simp [processChildren]
  | cons c rest ih =>
    intro pp i prev
    simp only [processChildren, List.mem_append]
    cases rest with
    | nil =>
      constructor
      · rintro (h | h)
        · cases c with
          | pass p cs =>
            exact absurd h (by
              simp only [processNode]
              exact short_path_not_in_sub pp i cs _ rfl)
          | vertices bufs inst =>
            by_cases hp : prev.isNone = true <;> by_cases hq : prevIsPass prev = true <;>
              simp [processNode, hp, hq] at h <;>
              exact ⟨_, rfl, rfl⟩
          | blit src =>
            by_cases hp : prev.isNone = true <;> by_cases hq : prevIsPass prev = true <;>
              simp [processNode, hp, hq] at h <;>
              exact ⟨_, rfl, rfl⟩
        · simp [processChildren] at h
      · rintro ⟨c', hc', hleaf⟩
        simp only [List.getLast?_singleton] at hc'
        injection hc' with h4
        subst h4
        left
        cases c with
        | pass p cs => simp [isLeafInstr] at hleaf
        | vertices bufs inst =>
          by_cases hp : prev.isNone = true <;> by_cases hq : prevIsPass prev = true <;>
            simp [processNode, hp, hq]
        | blit src =>
          by_cases hp : prev.isNone = true <;> by_cases hq : prevIsPass prev = true <;>
            simp [processNode, hp, hq]
    | cons d rest2 =>
      have ihr := ih pp (i + 1) (some c)
      constructor
      · rintro (h | h)
        · exfalso
          cases c with
          | pass p cs =>
            exact absurd h (by
              simp only [processNode]
              exact short_path_not_in_sub pp i cs _ rfl)
          | vertices bufs inst =>
            by_cases hp : prev.isNone = true <;> by_cases hq : prevIsPass prev = true <;>
              simp [processNode, hp, hq] at h
          | blit src =>
            by_cases hp : prev.isNone = true <;> by_cases hq : prevIsPass prev = true <;>
              simp [processNode, hp, hq] at h
        · have h5 := ihr.mp h
          rw [List.getLast?_cons_cons]
          exact h5
      · intro h5
        right
        rw [List.getLast?_cons_cons] at h5
        exact ihr.mpr h5

/-- C9 (amended): during dispatch of the children of a pass at path `pp`,
the pass's setup runs exactly when its first child is visited and that
child is a leaf op (vertices or blit), and the teardown exactly when its
last child is visited and that child is a leaf op; in particular no later
sibling ever emits the setup, and a pass whose first (resp. last) child is
itself a pass gets no setup (resp. teardown) at all.  As literally stated
— setup/teardown running for every pass with at least one child — the
claim fails, see the counterexample. -/
theorem c9_setup_teardown_schedule (pp : List Nat) (cs : List CgPrivInstr) :
    ((DispatchEv.setup pp ∈ processChildren pp 0 none cs) ↔
       (∃ c, cs.head? = some c ∧ isLeafInstr c = true))
    ∧ ((DispatchEv.teardown pp ∈ processChildren pp 0 none cs) ↔
       (∃ c, cs.getLast? = some c ∧ isLeafInstr c = true))
    ∧ (∀ (c : CgPrivInstr) (rest : List CgPrivInstr),
        DispatchEv.setup pp ∉ processChildren pp 1 (some c) rest) := by
  refine ⟨?_, teardown_mem_processChildren cs pp 0 none, ?_⟩
  · rw [setup_mem_processChildren]
    simp
  · intro c rest hmem
    have h5 := (setup_mem_processChildren rest pp 1 (some c)).mp hmem
    simp at h5

/-- Witness for C9 (amended) at a concrete input: with a single vertices
child, the pass's setup is emitted at that first child, and no traversal
starting after the first child emits it. -/
theorem c9_setup_teardown_schedule_witness :
    (DispatchEv.setup [] ∈ processChildren [] 0 none [CgPrivInstr.vertices [1] 1])
    ∧ DispatchEv.setup []
        ∉ processChildren [] 1 (some (CgPrivInstr.vertices [1] 1)) [] :=
  ⟨(c9_setup_teardown_schedule [] [CgPrivInstr.vertices [1] 1]).1.mpr
     ⟨CgPrivInstr.vertices [1] 1, rfl, rfl⟩,
   (c9_setup_teardown_schedule [] [CgPrivInstr.vertices [1] 1]).2.2
     (CgPrivInstr.vertices [1] 1) []⟩

/-- C9 counterexample: a root pass whose only child is a sub-pass (holding
one vertices leaf).  The root has a child, yet dispatch emits neither the
root's setup nor its teardown — only the sub-pass's — contradicting the
claim that setup/teardown run at every pass's first/last child. -/
theorem c9_counterexample_subpass_child :
    c9tree = CgPrivInstr.pass freshConfigPass
      [CgPrivInstr.pass freshConfigPass [CgPrivInstr.vertices [1] 1]]
    ∧ commands_dispatch c9tree
        = [DispatchEv.setup [0], DispatchEv.draw [0, 0], DispatchEv.teardown [0]]
    ∧ DispatchEv.setup [] ∉ commands_dispatch c9tree
    ∧ DispatchEv.teardown [] ∉ commands_dispatch c9tree := by
  have h : commands_dispatch c9tree
      = [DispatchEv.setup [0], DispatchEv.draw [0, 0], DispatchEv.teardown [0]] := by
    simp [commands_dispatch, c9tree, processChildren, processNode, prevIsPass]
  exact ⟨rfl, h, by rw [h]; decide, by rw [h]; decide⟩

end CpcGpu
